import Mathlib

/-!
Shallow embedding of the BreadedGBA emulator core (ARM7TDMI CPU, memory bus,
interrupt controller) and proofs about it.

Source files embedded:
- src/cpu/arm7_cpu.h / src/cpu/arm7_cpu.cpp  (ARM7CPU)
- src/memory/memory.h / src/memory/memory.cpp (GBAMemory)
- src/system.h / src/system.cpp               (GBASystem)

Modelling conventions:
- uint32_t values are Nat with explicit reduction mod 2^32 (u32) at the
  points where C++ arithmetic wraps; bitwise ops with 32-bit masks already
  keep results in range.
- std::array fields are total functions Nat -> Nat; the C++ code only
  accesses in-bounds indices on the paths embedded here.
- Debug logging (std::cout) has no architectural effect and is dropped.
- C++ parameter types uint8_t/uint16_t/uint32_t truncate their arguments;
  the embedding masks the corresponding Nat arguments on entry.
-/

namespace GBA

/-- Reduction mod 2^32, the wrap-around of uint32_t arithmetic. -/
def u32 (x : Nat) : Nat := x % 4294967296

/-- Point update of a register file modelled as a function. -/
def upd (f : Nat → Nat) (i v : Nat) : Nat → Nat :=
  fun j => if j = i then v else f j

/-! CPU state flag masks, from cpu/arm7_cpu.h. -/

/-- Negative flag mask (bit 31). -/
def FLAG_N : Nat := 1 <<< 31

/-- Zero flag mask (bit 30). -/
def FLAG_Z : Nat := 1 <<< 30

/-- Carry flag mask (bit 29). -/
def FLAG_C : Nat := 1 <<< 29

/-- Overflow flag mask (bit 28). -/
def FLAG_V : Nat := 1 <<< 28

/-- IRQ disable mask (bit 7). -/
def FLAG_I : Nat := 1 <<< 7

/-- FIQ disable mask (bit 6). -/
def FLAG_F : Nat := 1 <<< 6

/-- Thumb mode mask (bit 5). -/
def FLAG_T : Nat := 1 <<< 5

/-- IRQ exception vector address. -/
def VECTOR_IRQ : Nat := 0x00000018

/-- FIQ exception vector address. -/
def VECTOR_FIQ : Nat := 0x0000001C

/-- Undefined-instruction exception vector address. -/
def VECTOR_UNDEFINED : Nat := 0x00000004

/-- CPU mode enumeration from cpu/arm7_cpu.h (enum class CpuMode : uint32_t). -/
inductive CpuMode where
  | USER
  | FIQ
  | IRQ
  | SUPERVISOR
  | ABORT
  | UNDEFINED
  | SYSTEM
deriving DecidableEq

/-- Numeric value of each CpuMode enumerator, as declared in the enum. -/
def CpuMode.toNat : CpuMode → Nat
  | .USER => 0x10
  | .FIQ => 0x11
  | .IRQ => 0x12
  | .SUPERVISOR => 0x13
  | .ABORT => 0x17
  | .UNDEFINED => 0x1B
  | .SYSTEM => 0x1F

/-- ARM7TDMI CPU state, from class ARM7CPU in cpu/arm7_cpu.h.
Arrays are modelled as functions from index to uint32 value. -/
structure ARM7CPU where
  registers : Nat → Nat
  cpsr : Nat
  spsr : Nat → Nat
  banked_r13 : Nat → Nat
  banked_r14 : Nat → Nat
  banked_r8_r12 : Nat → Nat
  thumb_mode : Bool
  cycles : Nat

/-- ARM7CPU::get_current_mode: the low five bits of the CPSR, as the raw
mode-field value (the C++ code casts them straight to CpuMode). -/
def get_current_mode (cpu : ARM7CPU) : Nat :=
  cpu.cpsr &&& 0x1F

/-- ARM7CPU::get_mode_index: bank-array slot for a mode value; unmatched
values fall to the default case, index 0. -/
def get_mode_index (mode : Nat) : Nat :=
  if mode = CpuMode.USER.toNat ∨ mode = CpuMode.SYSTEM.toNat then 0
  else if mode = CpuMode.FIQ.toNat then 1
  else if mode = CpuMode.IRQ.toNat then 2
  else if mode = CpuMode.SUPERVISOR.toNat then 3
  else if mode = CpuMode.ABORT.toNat then 4
  else if mode = CpuMode.UNDEFINED.toNat then 5
  else 0

/-- ARM7CPU::save_banked_registers: store visible R13/R14 into the bank slot
of the departing mode, and R8-R12 into the FIQ half of banked_r8_r12 only
when the departing mode is FIQ. -/
def save_banked_registers (cpu : ARM7CPU) (prior_mode : Nat) : ARM7CPU :=
  let mode_index := get_mode_index prior_mode
  let cpu1 := { cpu with
    banked_r13 := upd cpu.banked_r13 mode_index (cpu.registers 13),
    banked_r14 := upd cpu.banked_r14 mode_index (cpu.registers 14) }
  if prior_mode = CpuMode.FIQ.toNat then
    { cpu1 with banked_r8_r12 :=
        fun i => if i < 5 then cpu1.registers (8 + i) else cpu1.banked_r8_r12 i }
  else cpu1

/-- ARM7CPU::restore_banked_registers: load R13/R14 from the bank slot of
the entered mode; R8-R12 from the FIQ half when entering FIQ, else from the
second half of banked_r8_r12. -/
def restore_banked_registers (cpu : ARM7CPU) (new_mode : Nat) : ARM7CPU :=
  let mode_index := get_mode_index new_mode
  { cpu with registers := fun j =>
      if j = 13 then cpu.banked_r13 mode_index
      else if j = 14 then cpu.banked_r14 mode_index
      else if 8 ≤ j ∧ j ≤ 12 then
        (if new_mode = CpuMode.FIQ.toNat then cpu.banked_r8_r12 (j - 8)
         else cpu.banked_r8_r12 (5 + (j - 8)))
      else cpu.registers j }

/-- ARM7CPU::switch_mode: no-op when the target equals the current mode;
otherwise save the departing bank, rewrite the CPSR mode field
(cpsr = (cpsr AND NOT 0x1F) OR new_mode) and restore the entered bank. -/
def switch_mode (cpu : ARM7CPU) (new_mode : Nat) : ARM7CPU :=
  let prior_mode := get_current_mode cpu
  if prior_mode = new_mode then cpu
  else
    let cpu1 := save_banked_registers cpu prior_mode
    let cpu2 := { cpu1 with cpsr := (cpu1.cpsr &&& 0xFFFFFFE0) ||| new_mode }
    restore_banked_registers cpu2 new_mode

/-- ARM7CPU::check_condition: 4-bit condition code against the CPSR flags. -/
def check_condition (cpsr : Nat) (condition : Nat) : Bool :=
  match condition with
  | 0x0 => decide (cpsr &&& FLAG_Z ≠ 0)
  | 0x1 => decide (cpsr &&& FLAG_Z = 0)
  | 0x2 => decide (cpsr &&& FLAG_C ≠ 0)
  | 0x3 => decide (cpsr &&& FLAG_C = 0)
  | 0x4 => decide (cpsr &&& FLAG_N ≠ 0)
  | 0x5 => decide (cpsr &&& FLAG_N = 0)
  | 0x6 => decide (cpsr &&& FLAG_V ≠ 0)
  | 0x7 => decide (cpsr &&& FLAG_V = 0)
  | 0x8 => decide (cpsr &&& FLAG_C ≠ 0) && decide (cpsr &&& FLAG_Z = 0)
  | 0x9 => decide (cpsr &&& FLAG_C = 0) || decide (cpsr &&& FLAG_Z ≠ 0)
  | 0xA => decide (cpsr &&& FLAG_N ≠ 0) == decide (cpsr &&& FLAG_V ≠ 0)
  | 0xB => decide (cpsr &&& FLAG_N ≠ 0) != decide (cpsr &&& FLAG_V ≠ 0)
  | 0xC => decide (cpsr &&& FLAG_Z = 0) && (decide (cpsr &&& FLAG_N ≠ 0) == decide (cpsr &&& FLAG_V ≠ 0))
  | 0xD => decide (cpsr &&& FLAG_Z ≠ 0) || (decide (cpsr &&& FLAG_N ≠ 0) != decide (cpsr &&& FLAG_V ≠ 0))
  | 0xE => true
  | 0xF => false
  | _ => false

/-- ARM7CPU::execute_arm: gate on the condition field, then classify SWP and
SWI patterns; every branch only logs (all opcodes are TODO), so the CPU
state is returned unchanged. -/
def execute_arm (cpu : ARM7CPU) (instruction : Nat) : ARM7CPU :=
  let condition := (instruction >>> 28) &&& 0xF
  if check_condition cpu.cpsr condition = false then cpu
  else if instruction &&& 0x0FB00FF0 = 0x01000090 then cpu
  else if instruction &&& 0x0F000000 = 0x0F000000 then cpu
  else cpu

/-- ARM7CPU::execute_thumb: classify the Thumb SWI pattern; both branches
only log (all opcodes are TODO), so the CPU state is returned unchanged. -/
def execute_thumb (cpu : ARM7CPU) (instruction : Nat) : ARM7CPU :=
  if instruction &&& 0xFF00 = 0xDF00 then cpu
  else cpu

/-- ARM7CPU::handle_irq: save CPSR to SPSR_irq, save PC minus the
instruction width to banked R14_irq, switch to IRQ mode, set the I bit,
clear the T bit and the thumb flag, jump to the IRQ vector, charge 3
cycles. The GBASystem argument of the C++ function is used only for
debug logging. -/
def handle_irq (cpu : ARM7CPU) : ARM7CPU :=
  let cpu1 := { cpu with spsr := upd cpu.spsr (get_mode_index CpuMode.IRQ.toNat) cpu.cpsr }
  let return_address :=
    if cpu1.thumb_mode then u32 (cpu1.registers 15 + 4294967294)
    else u32 (cpu1.registers 15 + 4294967292)
  let cpu2 := { cpu1 with
    banked_r14 := upd cpu1.banked_r14 (get_mode_index CpuMode.IRQ.toNat) return_address }
  let cpu3 := switch_mode cpu2 CpuMode.IRQ.toNat
  let cpu4 := { cpu3 with
    cpsr := (cpu3.cpsr ||| FLAG_I) &&& (0xFFFFFFFF ^^^ FLAG_T),
    thumb_mode := false }
  let cpu5 := { cpu4 with registers := upd cpu4.registers 15 VECTOR_IRQ }
  { cpu5 with cycles := cpu5.cycles + 3 }

/-- ARM7CPU::handle_fiq: same sequence as handle_irq but targeting FIQ
mode, setting both the F and I bits and jumping to the FIQ vector. -/
def handle_fiq (cpu : ARM7CPU) : ARM7CPU :=
  let cpu1 := { cpu with spsr := upd cpu.spsr (get_mode_index CpuMode.FIQ.toNat) cpu.cpsr }
  let return_address :=
    if cpu1.thumb_mode then u32 (cpu1.registers 15 + 4294967294)
    else u32 (cpu1.registers 15 + 4294967292)
  let cpu2 := { cpu1 with
    banked_r14 := upd cpu1.banked_r14 (get_mode_index CpuMode.FIQ.toNat) return_address }
  let cpu3 := switch_mode cpu2 CpuMode.FIQ.toNat
  let cpu4 := { cpu3 with
    cpsr := (cpu3.cpsr ||| (FLAG_F ||| FLAG_I)) &&& (0xFFFFFFFF ^^^ FLAG_T),
    thumb_mode := false }
  let cpu5 := { cpu4 with registers := upd cpu4.registers 15 VECTOR_FIQ }
  { cpu5 with cycles := cpu5.cycles + 3 }

/-- ARM7CPU::reset: zero the register file except PC = 0x08000000, CPSR =
System mode, zero all banks, then preload the per-mode stack pointers. -/
def reset : ARM7CPU :=
  { registers := fun i => if i = 15 then 0x08000000 else 0,
    cpsr := CpuMode.SYSTEM.toNat,
    spsr := fun _ => 0,
    banked_r13 := fun i =>
      if i = get_mode_index CpuMode.USER.toNat then 0x03007F00
      else if i = get_mode_index CpuMode.IRQ.toNat then 0x03007FA0
      else if i = get_mode_index CpuMode.FIQ.toNat then 0x03007FE0
      else if i = get_mode_index CpuMode.SUPERVISOR.toNat then 0x03007FE0
      else if i = get_mode_index CpuMode.ABORT.toNat then 0x03007FE0
      else if i = get_mode_index CpuMode.UNDEFINED.toNat then 0x03007FE0
      else 0,
    banked_r14 := fun _ => 0,
    banked_r8_r12 := fun _ => 0,
    thumb_mode := false,
    cycles := 0 }

/-- GBA memory, from class GBAMemory in memory/memory.h. Every region is
accessed by the source exclusively through aligned 32-bit loads and stores
(reinterpret_cast on the byte arrays), so each region is modelled as a map
from aligned-word index to uint32 word value. rom is a std::vector whose
byte length is romSize. -/
structure GBAMemory where
  bios : Nat → Nat
  ewram : Nat → Nat
  iwram : Nat → Nat
  io_registers : Nat → Nat
  palette : Nat → Nat
  vram : Nat → Nat
  oam : Nat → Nat
  rom : Nat → Nat
  romSize : Nat

/-- GBAMemory::read32: align the address down to a word boundary, then
dispatch over the region map; unmapped memory reads as 0. -/
def read32 (m : GBAMemory) (addr : Nat) : Nat :=
  let address := u32 addr &&& 0xFFFFFFFC
  if address < 0x00004000 then m.bios (address / 4)
  else if 0x02000000 ≤ address ∧ address < 0x02040000 then m.ewram ((address - 0x02000000) / 4)
  else if 0x03000000 ≤ address ∧ address < 0x03008000 then m.iwram ((address - 0x03000000) / 4)
  else if 0x04000000 ≤ address ∧ address < 0x04000400 then m.io_registers ((address - 0x04000000) / 4)
  else if 0x05000000 ≤ address ∧ address < 0x05000400 then m.palette ((address - 0x05000000) / 4)
  else if 0x06000000 ≤ address ∧ address < 0x06018000 then m.vram ((address - 0x06000000) / 4)
  else if 0x07000000 ≤ address ∧ address < 0x07000400 then m.oam ((address - 0x07000000) / 4)
  else if 0x08000000 ≤ address ∧ address < 0x08000000 + m.romSize then m.rom ((address - 0x08000000) / 4)
  else 0

/-- GBAMemory::read16: read the containing aligned word and select the
upper or lower halfword by bit 1 of the address. -/
def read16 (m : GBAMemory) (addr : Nat) : Nat :=
  let address := u32 addr
  let word := read32 m (address &&& 0xFFFFFFFC)
  if address &&& 2 ≠ 0 then word >>> 16 else word &&& 0xFFFF

/-- GBAMemory::read8: read the containing aligned word and select the byte
lane by the low two address bits. -/
def read8 (m : GBAMemory) (addr : Nat) : Nat :=
  let address := u32 addr
  let word := read32 m (address &&& 0xFFFFFFFC)
  (word >>> ((address &&& 3) * 8)) &&& 0xFF

/-- GBAMemory::write32: align the address down to a word boundary and store
into the writable region containing it; BIOS and ROM have no branch, so
writes to them (and to unmapped space) are discarded. -/
def write32 (m : GBAMemory) (addr value : Nat) : GBAMemory :=
  let address := u32 addr &&& 0xFFFFFFFC
  let v := u32 value
  if 0x02000000 ≤ address ∧ address < 0x02040000 then
    { m with ewram := upd m.ewram ((address - 0x02000000) / 4) v }
  else if 0x03000000 ≤ address ∧ address < 0x03008000 then
    { m with iwram := upd m.iwram ((address - 0x03000000) / 4) v }
  else if 0x04000000 ≤ address ∧ address < 0x04000400 then
    { m with io_registers := upd m.io_registers ((address - 0x04000000) / 4) v }
  else if 0x05000000 ≤ address ∧ address < 0x05000400 then
    { m with palette := upd m.palette ((address - 0x05000000) / 4) v }
  else if 0x06000000 ≤ address ∧ address < 0x06018000 then
    { m with vram := upd m.vram ((address - 0x06000000) / 4) v }
  else if 0x07000000 ≤ address ∧ address < 0x07000400 then
    { m with oam := upd m.oam ((address - 0x07000000) / 4) v }
  else m

/-- GBAMemory::write16: read-modify-write of the containing aligned word.
The odd-address branch shifts a 16-bit lane mask by the byte offset; the
even branches merge the upper or lower halfword directly. -/
def write16 (m : GBAMemory) (addr value : Nat) : GBAMemory :=
  let address := u32 addr
  let v := value &&& 0xFFFF
  if address &&& 1 ≠ 0 then
    let aligned_addr := address &&& 0xFFFFFFFC
    let old_value := read32 m aligned_addr
    let shift := (address &&& 3) * 8
    let mask := u32 (0xFFFF <<< shift)
    let new_value := (old_value &&& (0xFFFFFFFF ^^^ mask)) ||| u32 (v <<< shift)
    write32 m aligned_addr new_value
  else
    let aligned_addr := address &&& 0xFFFFFFFC
    let old_value := read32 m aligned_addr
    if address &&& 2 ≠ 0 then
      write32 m aligned_addr ((old_value &&& 0xFFFF) ||| u32 (v <<< 16))
    else
      write32 m aligned_addr ((old_value &&& 0xFFFF0000) ||| v)

/-- GBAMemory::write8: read-modify-write of the containing aligned word,
merging one byte lane selected by the low two address bits. -/
def write8 (m : GBAMemory) (addr value : Nat) : GBAMemory :=
  let address := u32 addr
  let v := value &&& 0xFF
  let aligned_addr := address &&& 0xFFFFFFFC
  let old_value := read32 m aligned_addr
  let shift := (address &&& 3) * 8
  let mask := u32 (0xFF <<< shift)
  let new_value := (old_value &&& (0xFFFFFFFF ^^^ mask)) ||| u32 (v <<< shift)
  write32 m aligned_addr new_value

/-- GBAMemory::is_writable: BIOS and ROM are read-only; only the six RAM
and register regions accept writes. -/
def is_writable (addr : Nat) : Bool :=
  let address := u32 addr
  decide ((0x02000000 ≤ address ∧ address < 0x02040000) ∨
          (0x03000000 ≤ address ∧ address < 0x03008000) ∨
          (0x04000000 ≤ address ∧ address < 0x04000400) ∨
          (0x05000000 ≤ address ∧ address < 0x05000400) ∨
          (0x06000000 ≤ address ∧ address < 0x06018000) ∨
          (0x07000000 ≤ address ∧ address < 0x07000400))

/-- GBAMemory::reset: zero all RAM regions (BIOS and ROM are untouched). -/
def memory_reset (m : GBAMemory) : GBAMemory :=
  { m with ewram := fun _ => 0, iwram := fun _ => 0, io_registers := fun _ => 0,
           palette := fun _ => 0, vram := fun _ => 0, oam := fun _ => 0 }

/-- PPU register state, the slice of class GBAPPU touched by the I/O
register interface in system.cpp. -/
structure GBAPPU where
  dispcnt : Nat
  dispstat : Nat
  vcount : Nat
  bg_control : Nat → Nat
  bg_scroll_x : Nat → Nat
  bg_scroll_y : Nat → Nat

/-- Whole-machine state, from class GBASystem in system.h. -/
structure GBASystem where
  cpu : ARM7CPU
  memory : GBAMemory
  ppu : GBAPPU
  interrupt_enable : Nat
  interrupt_flags : Nat
  interrupt_master : Nat

/-- Interrupt-register addresses from system.h. -/
def REG_IE : Nat := 0x04000200

/-- Interrupt request flags register address. -/
def REG_IF : Nat := 0x04000202

/-- Interrupt master enable register address. -/
def REG_IME : Nat := 0x04000208

/-- GBASystem::has_pending_interrupts: true when the master-enable bit is
set and some interrupt is both requested and enabled. -/
def has_pending_interrupts (g : GBASystem) : Bool :=
  if g.interrupt_master &&& 1 = 0 then false
  else decide (g.interrupt_flags &&& g.interrupt_enable ≠ 0)

/-- GBASystem::request_interrupt: reject out-of-range interrupt types
without mutating state, otherwise set the corresponding flag bit. -/
def request_interrupt (g : GBASystem) (interrupt_type : Int) : GBASystem :=
  if interrupt_type < 0 ∨ interrupt_type > 13 then g
  else { g with interrupt_flags := g.interrupt_flags ||| (1 <<< interrupt_type.toNat) }

/-- ARM7CPU::step, lifted to the whole system it mutates: take a pending
unmasked IRQ when the I bit is clear, otherwise fetch at PC, advance PC by
the instruction width, execute, and charge one cycle. -/
def step (g : GBASystem) : GBASystem :=
  if g.cpu.cpsr &&& FLAG_I = 0 ∧ has_pending_interrupts g = true then
    { g with cpu := handle_irq g.cpu }
  else if g.cpu.thumb_mode then
    let instruction := read16 g.memory (g.cpu.registers 15)
    let cpu1 := { g.cpu with registers := upd g.cpu.registers 15 (u32 (g.cpu.registers 15 + 2)) }
    let cpu2 := execute_thumb cpu1 instruction
    { g with cpu := { cpu2 with cycles := cpu2.cycles + 1 } }
  else
    let instruction := read32 g.memory (g.cpu.registers 15)
    let cpu1 := { g.cpu with registers := upd g.cpu.registers 15 (u32 (g.cpu.registers 15 + 4)) }
    let cpu2 := execute_arm cpu1 instruction
    { g with cpu := { cpu2 with cycles := cpu2.cycles + 1 } }

/-- GBASystem::write_io_register (8-bit): byte writes to the interrupt and
display registers; a 1 bit written to an IF byte clears that request bit. -/
def write_io_register (g : GBASystem) (address value : Nat) : GBASystem :=
  let v := value &&& 0xFF
  if address = REG_IE then
    { g with interrupt_enable := (g.interrupt_enable &&& 0xFF00) ||| v }
  else if address = REG_IE + 1 then
    { g with interrupt_enable := (g.interrupt_enable &&& 0x00FF) ||| (v <<< 8) }
  else if address = REG_IF then
    { g with interrupt_flags := g.interrupt_flags &&& (0xFFFF ^^^ v) }
  else if address = REG_IF + 1 then
    { g with interrupt_flags := g.interrupt_flags &&& (0xFFFF ^^^ (v <<< 8)) }
  else if address = REG_IME then
    { g with interrupt_master := (g.interrupt_master &&& 0xFFFFFF00) ||| v }
  else if address = REG_IME + 1 ∨ address = REG_IME + 2 ∨ address = REG_IME + 3 then
    let shift := (address - REG_IME) * 8
    let mask := u32 (0xFF <<< shift) ^^^ 0xFFFFFFFF
    { g with interrupt_master := (g.interrupt_master &&& mask) ||| (v <<< shift) }
  else if address = 0x04000000 then
    { g with ppu := { g.ppu with dispcnt := (g.ppu.dispcnt &&& 0xFF00) ||| v } }
  else if address = 0x04000001 then
    { g with ppu := { g.ppu with dispcnt := (g.ppu.dispcnt &&& 0x00FF) ||| (v <<< 8) } }
  else if address = 0x04000004 then
    { g with ppu := { g.ppu with dispstat := (g.ppu.dispstat &&& 0xFF00) ||| (v &&& 0xF8) } }
  else if address = 0x04000005 then
    { g with ppu := { g.ppu with dispstat := (g.ppu.dispstat &&& 0x00FF) ||| (v <<< 8) } }
  else g

/-- GBASystem::write_io_register16: halfword writes to the interrupt,
display and background registers; writing to IF clears the 1 bits of the
written value (write-to-clear); unknown addresses fall back to two 8-bit
writes. -/
def write_io_register16 (g : GBASystem) (address value : Nat) : GBASystem :=
  let v := value &&& 0xFFFF
  if address = REG_IE then { g with interrupt_enable := v }
  else if address = REG_IF then
    { g with interrupt_flags := g.interrupt_flags &&& (0xFFFF ^^^ v) }
  else if address = REG_IME then
    { g with interrupt_master := (g.interrupt_master &&& 0xFFFF0000) ||| v }
  else if address = 0x04000000 then
    { g with ppu := { g.ppu with dispcnt := v } }
  else if address = 0x04000004 then
    { g with ppu := { g.ppu with dispstat := (g.ppu.dispstat &&& 0x0007) ||| (v &&& 0xFFF8) } }
  else if address = 0x04000008 then { g with ppu := { g.ppu with bg_control := upd g.ppu.bg_control 0 v } }
  else if address = 0x0400000A then { g with ppu := { g.ppu with bg_control := upd g.ppu.bg_control 1 v } }
  else if address = 0x0400000C then { g with ppu := { g.ppu with bg_control := upd g.ppu.bg_control 2 v } }
  else if address = 0x0400000E then { g with ppu := { g.ppu with bg_control := upd g.ppu.bg_control 3 v } }
  else if address = 0x04000010 then { g with ppu := { g.ppu with bg_scroll_x := upd g.ppu.bg_scroll_x 0 v } }
  else if address = 0x04000012 then { g with ppu := { g.ppu with bg_scroll_y := upd g.ppu.bg_scroll_y 0 v } }
  else if address = 0x04000014 then { g with ppu := { g.ppu with bg_scroll_x := upd g.ppu.bg_scroll_x 1 v } }
  else if address = 0x04000016 then { g with ppu := { g.ppu with bg_scroll_y := upd g.ppu.bg_scroll_y 1 v } }
  else if address = 0x04000018 then { g with ppu := { g.ppu with bg_scroll_x := upd g.ppu.bg_scroll_x 2 v } }
  else if address = 0x0400001A then { g with ppu := { g.ppu with bg_scroll_y := upd g.ppu.bg_scroll_y 2 v } }
  else if address = 0x0400001C then { g with ppu := { g.ppu with bg_scroll_x := upd g.ppu.bg_scroll_x 3 v } }
  else if address = 0x0400001E then { g with ppu := { g.ppu with bg_scroll_y := upd g.ppu.bg_scroll_y 3 v } }
  else
    let g1 := write_io_register g address (v &&& 0xFF)
    write_io_register g1 (address + 1) ((v >>> 8) &&& 0xFF)

/-! Concrete states used to evaluate the model on specific inputs. -/

/-- Memory with all regions zeroed and no ROM image loaded, as after
GBAMemory::reset on a fresh object. -/
def m0 : GBAMemory :=
  { bios := fun _ => 0, ewram := fun _ => 0, iwram := fun _ => 0,
    io_registers := fun _ => 0, palette := fun _ => 0, vram := fun _ => 0,
    oam := fun _ => 0, rom := fun _ => 0, romSize := 0 }

/-- PPU register state with everything zeroed. -/
def ppu0 : GBAPPU :=
  { dispcnt := 0, dispstat := 0, vcount := 0, bg_control := fun _ => 0,
    bg_scroll_x := fun _ => 0, bg_scroll_y := fun _ => 0 }

/-- System state of the documented IRQ-entry scenario: CPU freshly reset
(System mode, ARM state, all flags clear) with PC moved to 0x08000100, and
the interrupt controller holding IME = 1, IE bit 0 = 1, IF bit 0 = 1. -/
def irq_entry_state : GBASystem :=
  { cpu := { reset with registers := upd reset.registers 15 0x08000100 },
    memory := m0, ppu := ppu0,
    interrupt_enable := 1, interrupt_flags := 1, interrupt_master := 1 }

/-- CPU state for the FIQ round-trip scenario: freshly reset (System mode)
with R8 set to a recognizable value. -/
def fiq_round_trip_cpu : ARM7CPU :=
  { reset with registers := upd reset.registers 8 0xDEADBEEF }

/-- CPU state for the IRQ round-trip scenario: freshly reset (System mode)
with R13 = 0x03007F00 and R14 set to a recognizable value. -/
def irq_round_trip_cpu : ARM7CPU :=
  { reset with registers := fun i =>
      if i = 13 then 0x03007F00 else if i = 14 then 0x12345678 else reset.registers i }

/-- Memory whose ROM image holds the single ARM word 0xE0000000
(an AND data-processing instruction, unimplemented by the executor). -/
def undef_instr_memory : GBAMemory :=
  { m0 with rom := fun _ => 0xE0000000, romSize := 4 }

/-- System state about to execute the unimplemented instruction at reset PC
with no interrupt pending. -/
def undef_instr_state : GBASystem :=
  { cpu := reset, memory := undef_instr_memory, ppu := ppu0,
    interrupt_enable := 0, interrupt_flags := 0, interrupt_master := 0 }

/-- System state identical to irq_entry_state except that the CPU has its
IRQ-disable (I) bit set and PC at the reset address. -/
def irq_masked_state : GBASystem :=
  { irq_entry_state with cpu :=
      { irq_entry_state.cpu with
        cpsr := CpuMode.SYSTEM.toNat ||| FLAG_I,
        registers := upd irq_entry_state.cpu.registers 15 0x08000000 } }

/-- Condition table exactly as the specification words it (section 4.2):
EQ=Z, NE=!Z, CS=C, CC=!C, MI=N, PL=!N, VS=V, VC=!V, HI=C AND NOT Z,
LS=NOT C OR Z, GE=(N==V), LT=(N!=V), GT=NOT Z AND (N==V),
LE=Z OR (N!=V), AL=true, NV=false. Stated over the four flag booleans;
used only to compare against check_condition. -/
def spec_condition_table (condition : Nat) (n z c v : Bool) : Bool :=
  match condition with
  | 0x0 => z
  | 0x1 => !z
  | 0x2 => c
  | 0x3 => !c
  | 0x4 => n
  | 0x5 => !n
  | 0x6 => v
  | 0x7 => !v
  | 0x8 => c && !z
  | 0x9 => !c || z
  | 0xA => n == v
  | 0xB => n != v
  | 0xC => !z && (n == v)
  | 0xD => z || (n != v)
  | 0xE => true
  | 0xF => false
  | _ => false

/-- Consistency of the redundant instruction-set representation: the
thumb_mode boolean agrees with the T bit of the CPSR. -/
def thumb_consistent (c : ARM7CPU) : Prop :=
  c.thumb_mode = decide (c.cpsr &&& FLAG_T ≠ 0)

instance (c : ARM7CPU) : Decidable (thumb_consistent c) := by
  unfold thumb_consistent
  infer_instance

/-- One bus write of any width, for stating properties of write sequences. -/
inductive BusWrite where
  | w8 (addr value : Nat)
  | w16 (addr value : Nat)
  | w32 (addr value : Nat)

/-- Apply one bus write through the corresponding GBAMemory entry point. -/
def apply_bus_write (m : GBAMemory) : BusWrite → GBAMemory
  | .w8 a v => write8 m a v
  | .w16 a v => write16 m a v
  | .w32 a v => write32 m a v

/-- Apply a sequence of bus writes in order. -/
def apply_bus_writes (m : GBAMemory) (l : List BusWrite) : GBAMemory :=
  l.foldl apply_bus_write m

/-! Helper lemmas about the CPSR bit manipulations. -/

/-- High bits of a constant below a power of two are clear. -/
lemma testBit_of_lt {c n i : Nat} (hc : c < 2 ^ n) (h : n ≤ i) : c.testBit i = false :=
  Nat.testBit_lt_two_pow (lt_of_lt_of_le hc (Nat.pow_le_pow_right (by omega) h))

/-- Mode field of the CPSR produced by IRQ entry: writing mode 0x12, then
setting I and clearing T, leaves the mode field at 0x12. -/
lemma irq_cpsr_mode (x : Nat) :
    (((x &&& 0xFFFFFFE0) ||| 0x12) ||| FLAG_I) &&& (0xFFFFFFFF ^^^ FLAG_T) &&& 0x1F = 0x12 := by
  have h1 : (0xFFFFFFFF ^^^ FLAG_T : Nat) = 0xFFFFFFDF := by decide
  have h2 : (FLAG_I : Nat) = 0x80 := by decide
  rw [h1, h2]
  apply Nat.eq_of_testBit_eq
  intro i
  simp only [Nat.testBit_land, Nat.testBit_lor]
  rcases Nat.lt_or_ge i 5 with h5 | h5
  · have hE0 : ∀ j < 5, (0xFFFFFFE0 : Nat).testBit j = false := by decide
    have h80 : ∀ j < 5, (0x80 : Nat).testBit j = false := by decide
    have hDF : ∀ j < 5, (0xFFFFFFDF : Nat).testBit j = true := by decide
    have h1F : ∀ j < 5, (0x1F : Nat).testBit j = true := by decide
    simp [hE0 i h5, h80 i h5, hDF i h5, h1F i h5]
  · have h1F : (0x1F : Nat).testBit i = false := testBit_of_lt (by norm_num) h5
    have h12 : (0x12 : Nat).testBit i = false := testBit_of_lt (by norm_num) h5
    simp [h1F, h12]

/-- The CPSR produced by IRQ entry has the T bit clear. -/
lemma irq_cpsr_T (x : Nat) :
    (((x &&& 0xFFFFFFE0) ||| 0x12) ||| FLAG_I) &&& (0xFFFFFFFF ^^^ FLAG_T) &&& FLAG_T = 0 := by
  have h1 : (0xFFFFFFFF ^^^ FLAG_T : Nat) = 0xFFFFFFDF := by decide
  have h2 : (FLAG_I : Nat) = 0x80 := by decide
  have h3 : (FLAG_T : Nat) = 2 ^ 5 := by decide
  rw [h1, h2, h3, Nat.and_two_pow]
  have hb : Nat.testBit ((((x &&& 0xFFFFFFE0) ||| 0x12) ||| 0x80) &&& 0xFFFFFFDF) 5 = false := by
    simp only [Nat.testBit_land, Nat.testBit_lor]
    have hDF : (0xFFFFFFDF : Nat).testBit 5 = false := by decide
    simp [hDF]
  rw [hb]; simp

/-- The CPSR produced by IRQ entry has the I bit set. -/
lemma irq_cpsr_I (x : Nat) :
    (((x &&& 0xFFFFFFE0) ||| 0x12) ||| FLAG_I) &&& (0xFFFFFFFF ^^^ FLAG_T) &&& FLAG_I ≠ 0 := by
  have h1 : (0xFFFFFFFF ^^^ FLAG_T : Nat) = 0xFFFFFFDF := by decide
  have h2 : (FLAG_I : Nat) = 2 ^ 7 := by decide
  rw [h1, h2, Nat.and_two_pow]
  have hb : Nat.testBit ((((x &&& 0xFFFFFFE0) ||| 0x12) ||| 2 ^ 7) &&& 0xFFFFFFDF) 7 = true := by
    simp only [Nat.testBit_land, Nat.testBit_lor]
    have h80 : (128 : Nat).testBit 7 = true := by decide
    have hDF : (0xFFFFFFDF : Nat).testBit 7 = true := by decide
    simp [h80, hDF]
  rw [hb]; simp

/-- Characterization of handle_irq from an ARM-state CPU in System mode. -/
lemma handle_irq_spec (c : ARM7CPU) (hmode : c.cpsr &&& 0x1F = 0x1F) (harm : c.thumb_mode = false) :
    (handle_irq c).cpsr = (((c.cpsr &&& 0xFFFFFFE0) ||| 0x12) ||| FLAG_I) &&& (0xFFFFFFFF ^^^ FLAG_T) ∧
    (handle_irq c).thumb_mode = false ∧
    (handle_irq c).registers 15 = VECTOR_IRQ ∧
    (handle_irq c).banked_r14 2 = u32 (c.registers 15 + 4294967292) ∧
    (handle_irq c).spsr 2 = c.cpsr := by
  simp [handle_irq, switch_mode, get_current_mode, save_banked_registers,
        restore_banked_registers, get_mode_index, upd, CpuMode.toNat, harm, hmode]

/-- The IRQ branch of step fires exactly on a clear I bit plus a pending
unmasked interrupt. -/
lemma step_takes_irq (g : GBASystem) (hi : g.cpu.cpsr &&& FLAG_I = 0)
    (hp : has_pending_interrupts g = true) :
    step g = { g with cpu := handle_irq g.cpu } := by
  unfold step
  rw [if_pos ⟨hi, hp⟩]

/-- Bit 0 set in IME, IE and IF makes has_pending_interrupts true. -/
lemma has_pending_of_bit0 (g : GBASystem) (hime : g.interrupt_master &&& 1 ≠ 0)
    (hie : g.interrupt_enable &&& 1 ≠ 0) (hif : g.interrupt_flags &&& 1 ≠ 0) :
    has_pending_interrupts g = true := by
  unfold has_pending_interrupts
  rw [if_neg hime]
  have h0 : Nat.testBit (g.interrupt_flags &&& g.interrupt_enable) 0 = true := by
    rw [Nat.testBit_land]
    rw [Nat.and_one_is_mod] at hie hif
    simp [Nat.testBit_zero]
    omega
  simp only [decide_eq_true_eq]
  intro hz
  rw [hz] at h0
  simp [Nat.zero_testBit] at h0

/-- C1. The claim as frozen is false on the code: from the documented
IRQ-entry state (System mode, ARM state, PC = 0x08000100, flags clear, IME
enabled, IE bit 0 set, IF bit 0 pending), one step banks
R14_irq = 0x080000FC, not 0x08000104 — ARM7CPU::step checks interrupts
before the fetch, so PC has not yet advanced when ARM7CPU::handle_irq
subtracts the instruction width. -/
theorem c1_counterexample :
    irq_entry_state.cpu.cpsr &&& 0x1F = 0x1F ∧
    irq_entry_state.cpu.thumb_mode = false ∧
    irq_entry_state.cpu.registers 15 = 0x08000100 ∧
    irq_entry_state.cpu.cpsr &&& (FLAG_N ||| FLAG_Z ||| FLAG_C ||| FLAG_V) = 0 ∧
    irq_entry_state.interrupt_master &&& 1 = 1 ∧
    irq_entry_state.interrupt_enable &&& 1 = 1 ∧
    irq_entry_state.interrupt_flags &&& 1 = 1 ∧
    (step irq_entry_state).cpu.banked_r14 (get_mode_index CpuMode.IRQ.toNat) = 0x080000FC ∧
    (step irq_entry_state).cpu.banked_r14 (get_mode_index CpuMode.IRQ.toNat) ≠ 0x08000104 := by
  decide

/-- C1 (amended). For every state with mode = System, ARM state, PC =
0x08000100, condition flags clear, the IRQ-disable bit clear, and the
interrupt controller reporting a pending unmasked interrupt (IME enabled,
IE bit 0, IF bit 0), one step enters IRQ mode in ARM state with the
IRQ-disable bit set, PC = 0x00000018, banked R14_irq = 0x080000FC (return
address computed as PC minus 4 with PC not yet advanced), and SPSR_irq
equal to the pre-entry status register. -/
theorem c1_irq_entry (g : GBASystem)
    (hmode : g.cpu.cpsr &&& 0x1F = 0x1F)
    (harm : g.cpu.thumb_mode = false)
    (ht : g.cpu.cpsr &&& FLAG_T = 0)
    (hflags : g.cpu.cpsr &&& (FLAG_N ||| FLAG_Z ||| FLAG_C ||| FLAG_V) = 0)
    (hpc : g.cpu.registers 15 = 0x08000100)
    (hi : g.cpu.cpsr &&& FLAG_I = 0)
    (hime : g.interrupt_master &&& 1 ≠ 0)
    (hie : g.interrupt_enable &&& 1 ≠ 0)
    (hif : g.interrupt_flags &&& 1 ≠ 0) :
    (step g).cpu.cpsr &&& 0x1F = CpuMode.IRQ.toNat ∧
    (step g).cpu.thumb_mode = false ∧
    (step g).cpu.cpsr &&& FLAG_T = 0 ∧
    (step g).cpu.cpsr &&& FLAG_I ≠ 0 ∧
    (step g).cpu.registers 15 = VECTOR_IRQ ∧
    (step g).cpu.banked_r14 (get_mode_index CpuMode.IRQ.toNat) = 0x080000FC ∧
    (step g).cpu.spsr (get_mode_index CpuMode.IRQ.toNat) = g.cpu.cpsr := by
  rw [step_takes_irq g hi (has_pending_of_bit0 g hime hie hif)]
  obtain ⟨hc, htm, hr15, hb14, hsp⟩ := handle_irq_spec g.cpu hmode harm
  have hidx : get_mode_index CpuMode.IRQ.toNat = 2 := by decide
  constructor
  · show (handle_irq g.cpu).cpsr &&& 0x1F = CpuMode.IRQ.toNat
    rw [hc]; exact irq_cpsr_mode g.cpu.cpsr
  refine ⟨htm, ?_, ?_, hr15, ?_, ?_⟩
  · show (handle_irq g.cpu).cpsr &&& FLAG_T = 0
    rw [hc]; exact irq_cpsr_T g.cpu.cpsr
  · show (handle_irq g.cpu).cpsr &&& FLAG_I ≠ 0
    rw [hc]; exact irq_cpsr_I g.cpu.cpsr
  · show (handle_irq g.cpu).banked_r14 (get_mode_index CpuMode.IRQ.toNat) = 0x080000FC
    rw [hidx, hb14, hpc]; decide
  · show (handle_irq g.cpu).spsr (get_mode_index CpuMode.IRQ.toNat) = g.cpu.cpsr
    rw [hidx, hsp]

/-- C1 witness: the amended IRQ-entry theorem instantiated at the concrete
documented scenario state. -/
theorem c1_irq_entry_witness :
    (step irq_entry_state).cpu.cpsr &&& 0x1F = CpuMode.IRQ.toNat ∧
    (step irq_entry_state).cpu.banked_r14 (get_mode_index CpuMode.IRQ.toNat) = 0x080000FC := by
  have h := c1_irq_entry irq_entry_state (by decide) (by decide) (by decide) (by decide)
    (by decide) (by decide) (by decide) (by decide) (by decide)
  exact ⟨h.1, h.2.2.2.2.2.1⟩

/-- The ARM executor never changes the CPU state: every decode branch in
the source only logs. -/
lemma execute_arm_id (c : ARM7CPU) (i : Nat) : execute_arm c i = c := by
  simp [execute_arm]

/-- The Thumb executor never changes the CPU state. -/
lemma execute_thumb_id (c : ARM7CPU) (i : Nat) : execute_thumb c i = c := by
  simp [execute_thumb]

/-- Writing a mode value below 32 into the CPSR mode field yields exactly
that mode field. -/
lemma mode_field_write (x m : Nat) (hm : m < 32) :
    ((x &&& 0xFFFFFFE0) ||| m) &&& 0x1F = m := by
  apply Nat.eq_of_testBit_eq
  intro i
  simp only [Nat.testBit_land, Nat.testBit_lor]
  rcases Nat.lt_or_ge i 5 with h5 | h5
  · have hE0 : ∀ j < 5, (0xFFFFFFE0 : Nat).testBit j = false := by decide
    have h1F : ∀ j < 5, (0x1F : Nat).testBit j = true := by decide
    simp [hE0 i h5, h1F i h5]
  · have h1F : (0x1F : Nat).testBit i = false := testBit_of_lt (by norm_num) h5
    have hm2 : m.testBit i = false := testBit_of_lt (by omega : m < 2 ^ 5) h5
    simp [h1F, hm2]

/-- Setting interrupt-disable bits and clearing T leaves the mode field of
the CPSR untouched. -/
lemma post_mask_mode (y b : Nat) (hb : b &&& 0x1F = 0) :
    ((y ||| b) &&& (0xFFFFFFFF ^^^ FLAG_T)) &&& 0x1F = y &&& 0x1F := by
  have h1 : (0xFFFFFFFF ^^^ FLAG_T : Nat) = 0xFFFFFFDF := by decide
  rw [h1]
  apply Nat.eq_of_testBit_eq
  intro i
  simp only [Nat.testBit_land, Nat.testBit_lor]
  rcases Nat.lt_or_ge i 5 with h5 | h5
  · have hDF : ∀ j < 5, (0xFFFFFFDF : Nat).testBit j = true := by decide
    have hbb : b.testBit i = false := by
      have := congrArg (fun t => t.testBit i) hb
      simpa [Nat.testBit_land, (by decide : ∀ j < 5, (0x1F : Nat).testBit j = true) i h5,
             Nat.zero_testBit] using this
    simp [hDF i h5, hbb]
  · have h1F : (0x1F : Nat).testBit i = false := testBit_of_lt (by norm_num) h5
    simp [h1F]

/-- Masking with the T-clear mask makes the T bit zero. -/
lemma land_notT_T (y : Nat) : (y &&& (0xFFFFFFFF ^^^ FLAG_T)) &&& FLAG_T = 0 := by
  have h1 : (0xFFFFFFFF ^^^ FLAG_T : Nat) = 0xFFFFFFDF := by decide
  have h3 : (FLAG_T : Nat) = 2 ^ 5 := by decide
  rw [h1, h3, Nat.and_two_pow]
  have hb : Nat.testBit (y &&& 0xFFFFFFDF) 5 = false := by
    simp only [Nat.testBit_land]
    have hDF : (0xFFFFFFDF : Nat).testBit 5 = false := by decide
    simp [hDF]
  rw [hb]; simp

/-- The mode field written by switch_mode is the requested one (for any
target below 32, which covers all CpuMode values). -/
lemma switch_mode_mode_field (c : ARM7CPU) (m : Nat) (hm : m < 32) :
    (switch_mode c m).cpsr &&& 0x1F = m := by
  unfold switch_mode get_current_mode
  by_cases h : c.cpsr &&& 0x1F = m
  · rw [if_pos h]; exact h
  · rw [if_neg h]
    show ((save_banked_registers c (c.cpsr &&& 0x1F)).cpsr &&& 0xFFFFFFE0 ||| m) &&& 0x1F = m
    have hsave : (save_banked_registers c (c.cpsr &&& 0x1F)).cpsr = c.cpsr := by
      unfold save_banked_registers
      split <;> rfl
    rw [hsave, mode_field_write _ _ hm]

/-- After handle_irq the mode field is always the IRQ mode. -/
lemma handle_irq_mode (c : ARM7CPU) : (handle_irq c).cpsr &&& 0x1F = CpuMode.IRQ.toNat := by
  unfold handle_irq
  show ((switch_mode _ CpuMode.IRQ.toNat).cpsr ||| FLAG_I) &&& (0xFFFFFFFF ^^^ FLAG_T) &&& 0x1F =
    CpuMode.IRQ.toNat
  rw [post_mask_mode _ _ (by decide)]
  exact switch_mode_mode_field _ _ (by decide)

/-- The CPSR is either rewritten by IRQ entry or left alone: stepping
never performs any other status-register change, in particular never a
FIQ entry. -/
lemma step_cpsr_cases (g : GBASystem) :
    (step g).cpu.cpsr = (handle_irq g.cpu).cpsr ∨ (step g).cpu.cpsr = g.cpu.cpsr := by
  unfold step
  split
  · left; rfl
  · split
    · right; show (execute_thumb _ _).cpsr = g.cpu.cpsr
      rw [execute_thumb_id]
    · right; show (execute_arm _ _).cpsr = g.cpu.cpsr
      rw [execute_arm_id]

/-- C2. The claim is false of the code: ARM7CPU::step contains no FIQ
arbitration at all. Every step either performs IRQ entry (mode field
becomes IRQ) or leaves the CPSR unchanged, so a FIQ entry is never taken;
concretely, from a state in which a FIQ would be eligible (FIQ-disable
bit clear) while an IRQ is pending, the step takes the IRQ path: it enters
IRQ mode at the IRQ vector and leaves the FIQ-disable bit clear, rather
than entering FIQ mode via handle_fiq. -/
theorem c2_no_fiq_priority :
    (∀ g : GBASystem,
      (step g).cpu.cpsr &&& 0x1F = CpuMode.IRQ.toNat ∨ (step g).cpu.cpsr = g.cpu.cpsr) ∧
    irq_entry_state.cpu.cpsr &&& FLAG_F = 0 ∧
    irq_entry_state.cpu.cpsr &&& FLAG_I = 0 ∧
    has_pending_interrupts irq_entry_state = true ∧
    (step irq_entry_state).cpu.cpsr &&& 0x1F = CpuMode.IRQ.toNat ∧
    (step irq_entry_state).cpu.cpsr &&& 0x1F ≠ CpuMode.FIQ.toNat ∧
    (step irq_entry_state).cpu.cpsr &&& FLAG_F = 0 ∧
    (step irq_entry_state).cpu.registers 15 = VECTOR_IRQ ∧
    (step irq_entry_state).cpu.registers 15 ≠ VECTOR_FIQ := by
  refine ⟨fun g => ?_, by decide, by decide, by decide, by decide, by decide, by decide,
    by decide, by decide⟩
  rcases step_cpsr_cases g with h | h
  · left; rw [h]; exact handle_irq_mode g.cpu
  · right; exact h

/-- C3. The claim is false of the code and the claim matches the intended
banking semantics, so the code is at fault: save_banked_registers stores
R8-R12 only when leaving FIQ, and the non-FIQ half of banked_r8_r12 (which
the restore path reads, and which the source comments as storing the
normal registers) is never written. Hence a System-mode CPU with
R8 = 0xDEADBEEF that switches to FIQ and back gets R8 = 0. The R13/R14
half of the claim does hold on the corresponding IRQ round trip. -/
theorem c3_fiq_round_trip :
    fiq_round_trip_cpu.cpsr &&& 0x1F = CpuMode.SYSTEM.toNat ∧
    fiq_round_trip_cpu.registers 8 = 0xDEADBEEF ∧
    (switch_mode (switch_mode fiq_round_trip_cpu CpuMode.FIQ.toNat) CpuMode.SYSTEM.toNat).registers 8 = 0 ∧
    (switch_mode (switch_mode fiq_round_trip_cpu CpuMode.FIQ.toNat) CpuMode.SYSTEM.toNat).registers 8 ≠
      fiq_round_trip_cpu.registers 8 ∧
    (switch_mode (switch_mode irq_round_trip_cpu CpuMode.IRQ.toNat) CpuMode.SYSTEM.toNat).registers 13 =
      irq_round_trip_cpu.registers 13 ∧
    (switch_mode (switch_mode irq_round_trip_cpu CpuMode.IRQ.toNat) CpuMode.SYSTEM.toNat).registers 14 =
      irq_round_trip_cpu.registers 14 := by
  decide

/-! Helper lemmas mapping the flag-mask comparisons of check_condition to
testBit form. -/

/-- Nonzero test of a single-bit mask is the bit itself. -/
lemma decide_land_pow_ne (x i : Nat) : decide (x &&& 2 ^ i ≠ 0) = x.testBit i := by
  rw [Nat.and_two_pow]
  cases h : x.testBit i <;> simp [h, (Nat.pos_pow_of_pos i (by norm_num) : 0 < 2 ^ i).ne']

/-- Zero test of a single-bit mask is the negated bit. -/
lemma decide_land_pow_eq (x i : Nat) : decide (x &&& 2 ^ i = 0) = !x.testBit i := by
  rw [Nat.and_two_pow]
  cases h : x.testBit i <;> simp [h, (Nat.pos_pow_of_pos i (by norm_num) : 0 < 2 ^ i).ne']

/-- Bit-31 mask comparison, nonzero form. -/
lemma land_bit31_ne (x : Nat) : decide (x &&& 2147483648 ≠ 0) = x.testBit 31 := by
  have h : (2147483648 : Nat) = 2 ^ 31 := by norm_num
  rw [h, decide_land_pow_ne]

/-- Bit-31 mask comparison, zero form. -/
lemma land_bit31_eq (x : Nat) : decide (x &&& 2147483648 = 0) = !x.testBit 31 := by
  have h : (2147483648 : Nat) = 2 ^ 31 := by norm_num
  rw [h, decide_land_pow_eq]

/-- Bit-30 mask comparison, nonzero form. -/
lemma land_bit30_ne (x : Nat) : decide (x &&& 1073741824 ≠ 0) = x.testBit 30 := by
  have h : (1073741824 : Nat) = 2 ^ 30 := by norm_num
  rw [h, decide_land_pow_ne]

/-- Bit-30 mask comparison, zero form. -/
lemma land_bit30_eq (x : Nat) : decide (x &&& 1073741824 = 0) = !x.testBit 30 := by
  have h : (1073741824 : Nat) = 2 ^ 30 := by norm_num
  rw [h, decide_land_pow_eq]

/-- Bit-29 mask comparison, nonzero form. -/
lemma land_bit29_ne (x : Nat) : decide (x &&& 536870912 ≠ 0) = x.testBit 29 := by
  have h : (536870912 : Nat) = 2 ^ 29 := by norm_num
  rw [h, decide_land_pow_ne]

/-- Bit-29 mask comparison, zero form. -/
lemma land_bit29_eq (x : Nat) : decide (x &&& 536870912 = 0) = !x.testBit 29 := by
  have h : (536870912 : Nat) = 2 ^ 29 := by norm_num
  rw [h, decide_land_pow_eq]

/-- Bit-28 mask comparison, nonzero form. -/
lemma land_bit28_ne (x : Nat) : decide (x &&& 268435456 ≠ 0) = x.testBit 28 := by
  have h : (268435456 : Nat) = 2 ^ 28 := by norm_num
  rw [h, decide_land_pow_ne]

/-- Bit-28 mask comparison, zero form. -/
lemma land_bit28_eq (x : Nat) : decide (x &&& 268435456 = 0) = !x.testBit 28 := by
  have h : (268435456 : Nat) = 2 ^ 28 := by norm_num
  rw [h, decide_land_pow_eq]

/-- C4. For every CPSR value and every 4-bit condition code, the condition
evaluator of the code computes exactly the documented table over the
(N, Z, C, V) flag bits, including AL = true and NV = false. -/
theorem c4_condition_table (cpsr : Nat) (cond : Fin 16) :
    check_condition cpsr cond.val =
    spec_condition_table cond.val (cpsr.testBit 31) (cpsr.testBit 30)
      (cpsr.testBit 29) (cpsr.testBit 28) := by
  fin_cases cond <;>
    simp [check_condition, spec_condition_table, FLAG_N, FLAG_Z, FLAG_C, FLAG_V,
          land_bit31_ne, land_bit31_eq, land_bit30_ne, land_bit30_eq,
          land_bit29_ne, land_bit29_eq, land_bit28_ne, land_bit28_eq]

/-- C5. The claim is a requirement the code does not meet: both executors
return the CPU unchanged for every instruction word (each decode branch
only logs), so an unrecognized pattern is silently skipped rather than
routed through Undefined-instruction exception entry. Concretely, stepping
over the unimplemented ARM word 0xE0000000 merely advances PC by 4 and
leaves the mode field at System: no switch to Undefined mode, no jump to
the Undefined vector, no SPSR write. -/
theorem c5_no_undefined_exception_entry :
    (∀ (c : ARM7CPU) (i : Nat), execute_arm c i = c) ∧
    (∀ (c : ARM7CPU) (i : Nat), execute_thumb c i = c) ∧
    read32 undef_instr_state.memory (undef_instr_state.cpu.registers 15) = 0xE0000000 ∧
    (step undef_instr_state).cpu.registers 15 = 0x08000004 ∧
    (step undef_instr_state).cpu.registers 15 ≠ VECTOR_UNDEFINED ∧
    (step undef_instr_state).cpu.cpsr &&& 0x1F = CpuMode.SYSTEM.toNat ∧
    (step undef_instr_state).cpu.cpsr &&& 0x1F ≠ CpuMode.UNDEFINED.toNat ∧
    (step undef_instr_state).cpu.spsr (get_mode_index CpuMode.UNDEFINED.toNat) =
      undef_instr_state.cpu.spsr (get_mode_index CpuMode.UNDEFINED.toNat) := by
  exact ⟨execute_arm_id, execute_thumb_id, by decide, by decide, by decide, by decide,
    by decide, by decide⟩

/-! Arithmetic bridges between the bitwise address tests of the memory bus
and mod arithmetic. -/

/-- Low bit of an address as a parity test. -/
lemma land_one_mod (x : Nat) : x &&& 1 = x % 2 := Nat.and_one_is_mod x

/-- Low two bits of an address as a mod-4 remainder. -/
lemma land_three_mod (x : Nat) : x &&& 3 = x % 4 := by
  have h := Nat.and_pow_two_sub_one_eq_mod x 2
  norm_num at h
  exact h

/-- Bit 1 of an address in terms of mod arithmetic. -/
lemma land_two_of_mod (x : Nat) : x &&& 2 = 2 * (x / 2 % 2) := by
  have h : (2 : Nat) = 2 ^ 1 := by norm_num
  rw [h, Nat.and_two_pow]
  have ht : x.testBit 1 = decide (x / 2 % 2 = 1) := by
    rw [Nat.testBit_succ, Nat.testBit_zero]
  rw [ht]
  rcases Nat.mod_two_eq_zero_or_one (x / 2) with h2 | h2 <;> simp [h2]

/-- C6. Sub-word bus writes are realized as a read-modify-write of the
containing aligned 32-bit word: write8 and write16 each equal a write32 of
the old word with the new byte or halfword lane shifted into place and the
remaining lanes kept (the three write16 source branches collapse to the
single lane-merge formula). Concretely, a 32-bit write of 0xDEADBEEF to
the start of EWRAM reads back as 0xDEADBEEF, and a 16-bit write of 0x1234
at odd address 0x02000001 produces the containing word 0x00123400. -/
theorem c6_subword_rmw :
    (∀ (m : GBAMemory) (a v : Nat),
      write8 m a v =
      write32 m (u32 a &&& 0xFFFFFFFC)
        ((read32 m (u32 a &&& 0xFFFFFFFC) &&&
          (0xFFFFFFFF ^^^ u32 (0xFF <<< ((u32 a &&& 3) * 8)))) |||
         u32 ((v &&& 0xFF) <<< ((u32 a &&& 3) * 8)))) ∧
    (∀ (m : GBAMemory) (a v : Nat),
      write16 m a v =
      write32 m (u32 a &&& 0xFFFFFFFC)
        ((read32 m (u32 a &&& 0xFFFFFFFC) &&&
          (0xFFFFFFFF ^^^ u32 (0xFFFF <<< ((u32 a &&& 3) * 8)))) |||
         u32 ((v &&& 0xFFFF) <<< ((u32 a &&& 3) * 8)))) ∧
    read32 (write32 m0 0x02000000 0xDEADBEEF) 0x02000000 = 0xDEADBEEF ∧
    read32 (write16 m0 0x02000001 0x1234) 0x02000000 = 0x00123400 := by
  refine ⟨fun m a v => rfl, fun m a v => ?_, by decide, by decide⟩
  unfold write16
  set b := u32 a with hb
  by_cases h1 : b &&& 1 ≠ 0
  · rw [if_pos h1]
  · rw [if_neg h1]
    push_neg at h1
    rw [land_one_mod] at h1
    by_cases h2 : b &&& 2 ≠ 0
    · rw [if_pos h2]
      rw [land_two_of_mod] at h2
      have h3 : b &&& 3 = 2 := by rw [land_three_mod]; omega
      rw [h3]
      have hmask : (0xFFFFFFFF ^^^ u32 (0xFFFF <<< (2 * 8)) : Nat) = 0xFFFF := by decide
      have hsh : u32 ((v &&& 0xFFFF) <<< (2 * 8)) = u32 ((v &&& 0xFFFF) <<< 16) := by norm_num
      rw [hmask, hsh]
    · rw [if_neg h2]
      push_neg at h2
      rw [land_two_of_mod] at h2
      have h3 : b &&& 3 = 0 := by rw [land_three_mod]; omega
      rw [h3]
      have hmask : (0xFFFFFFFF ^^^ u32 (0xFFFF <<< (0 * 8)) : Nat) = 0xFFFF0000 := by decide
      have hv : u32 ((v &&& 0xFFFF) <<< (0 * 8)) = v &&& 0xFFFF := by
        have hlt : v &&& 0xFFFF < 4294967296 := by
          have h16 := Nat.and_pow_two_sub_one_eq_mod v 16
          norm_num at h16
          omega
        simp [u32, Nat.shiftLeft_eq, Nat.mod_eq_of_lt hlt]
      rw [hmask, hv]

/-- IRQ entry always lands on the IRQ vector. -/
lemma handle_irq_pc (c : ARM7CPU) : (handle_irq c).registers 15 = VECTOR_IRQ := by
  simp [handle_irq, upd]

/-- Stepping never changes the interrupt request flags: handle_irq only
touches the CPU, and instruction execution only advances PC and cycles. -/
lemma step_preserves_flags (g : GBASystem) : (step g).interrupt_flags = g.interrupt_flags := by
  unfold step
  split
  · rfl
  · split <;> rfl

/-- C7. The claim as frozen quantifies over every state with IME, IE bit 0
and IF bit 0 set, but delivery also requires the CPU-side IRQ-disable bit
to be clear: with the I flag set, the step executes an instruction instead
(PC advances to 0x08000004, not the IRQ vector), falsifying the claim. -/
theorem c7_masked_counterexample :
    irq_masked_state.interrupt_master &&& 1 = 1 ∧
    irq_masked_state.interrupt_enable &&& 1 = 1 ∧
    irq_masked_state.interrupt_flags &&& 1 = 1 ∧
    (step irq_masked_state).cpu.registers 15 = 0x08000004 ∧
    (step irq_masked_state).cpu.registers 15 ≠ VECTOR_IRQ := by
  decide

/-- C7 (amended). For every state with IME, IE bit 0 and IF bit 0 set and
the CPU IRQ-disable flag clear, one step jumps to the IRQ vector while
leaving the request-flags register untouched, so IF bit 0 stays set; the
16-bit IF write interface clears exactly the 1 bits of the written value
(write-to-clear) and can never set a pending flag. -/
theorem c7_vblank_delivery_and_ack (g : GBASystem)
    (hime : g.interrupt_master &&& 1 ≠ 0)
    (hie : g.interrupt_enable &&& 1 ≠ 0)
    (hif : g.interrupt_flags &&& 1 ≠ 0)
    (hi : g.cpu.cpsr &&& FLAG_I = 0) :
    (step g).cpu.registers 15 = VECTOR_IRQ ∧
    (step g).interrupt_flags = g.interrupt_flags ∧
    Nat.testBit (step g).interrupt_flags 0 = true ∧
    (∀ v, (write_io_register16 g REG_IF v).interrupt_flags =
      g.interrupt_flags &&& (0xFFFF ^^^ (v &&& 0xFFFF))) ∧
    (∀ v i, Nat.testBit ((write_io_register16 g REG_IF v).interrupt_flags) i = true →
      Nat.testBit g.interrupt_flags i = true) := by
  have hstep := step_takes_irq g hi (has_pending_of_bit0 g hime hie hif)
  have hval : ∀ v, (write_io_register16 g REG_IF v).interrupt_flags =
      g.interrupt_flags &&& (0xFFFF ^^^ (v &&& 0xFFFF)) := by
    intro v
    simp [write_io_register16, REG_IE, REG_IF]
  refine ⟨?_, step_preserves_flags g, ?_, hval, ?_⟩
  · rw [hstep]
    exact handle_irq_pc g.cpu
  · rw [step_preserves_flags g]
    rw [Nat.and_one_is_mod] at hif
    simp only [Nat.testBit_zero]
    simp
    omega
  · intro v i ht
    rw [hval v, Nat.testBit_land] at ht
    rcases Bool.and_eq_true _ _ |>.mp ht with ⟨h1, _⟩
    exact h1

/-- C7 witness: delivery and flag retention at the concrete scenario
state. -/
theorem c7_witness :
    (step irq_entry_state).cpu.registers 15 = VECTOR_IRQ ∧
    (step irq_entry_state).interrupt_flags = irq_entry_state.interrupt_flags ∧
    Nat.testBit (step irq_entry_state).interrupt_flags 0 = true := by
  have h := c7_vblank_delivery_and_ack irq_entry_state (by decide) (by decide) (by decide)
    (by decide)
  exact ⟨h.1, h.2.1, h.2.2.1⟩

/-- Every CpuMode enumerator value fits in the five-bit mode field. -/
lemma cpuMode_toNat_lt (m : CpuMode) : m.toNat < 32 := by
  cases m <;> decide

/-- Rewriting the mode field leaves every bit from 5 to 31 unchanged. -/
lemma mode_write_preserves_bit (x b : Nat) (hb : b < 32) (i : Nat) (h5 : 5 ≤ i) (h32 : i < 32) :
    ((x &&& 0xFFFFFFE0) ||| b) &&& 2 ^ i = x &&& 2 ^ i := by
  rw [Nat.and_two_pow, Nat.and_two_pow]
  have hE0 : ∀ j < 32, 5 ≤ j → (0xFFFFFFE0 : Nat).testBit j = true := by decide
  have hbb : b.testBit i = false := testBit_of_lt (show b < 2 ^ 5 by omega) h5
  simp [Nat.testBit_lor, Nat.testBit_land, hE0 i h32 h5, hbb]

/-- Saving banked registers does not touch the CPSR. -/
lemma save_banked_cpsr (c : ARM7CPU) (p : Nat) : (save_banked_registers c p).cpsr = c.cpsr := by
  unfold save_banked_registers
  split <;> rfl

/-- The CPSR after a proper mode change is the old value with the mode
field overwritten. -/
lemma switch_mode_cpsr_of_ne (c : ARM7CPU) (m : Nat) (h : get_current_mode c ≠ m) :
    (switch_mode c m).cpsr = (c.cpsr &&& 0xFFFFFFE0) ||| m := by
  unfold switch_mode
  rw [if_neg h]
  show ((save_banked_registers c (get_current_mode c)).cpsr &&& 0xFFFFFFE0) ||| m =
    (c.cpsr &&& 0xFFFFFFE0) ||| m
  rw [save_banked_cpsr]

/-- C8. switch_mode leaves all four condition flags and the T bit of the
CPSR unchanged for every CPU state and every target mode, and it is a
complete no-op when the target equals the current mode. -/
theorem c8_switch_mode_frame (c : ARM7CPU) (m : CpuMode) :
    (switch_mode c m.toNat).cpsr &&& FLAG_N = c.cpsr &&& FLAG_N ∧
    (switch_mode c m.toNat).cpsr &&& FLAG_Z = c.cpsr &&& FLAG_Z ∧
    (switch_mode c m.toNat).cpsr &&& FLAG_C = c.cpsr &&& FLAG_C ∧
    (switch_mode c m.toNat).cpsr &&& FLAG_V = c.cpsr &&& FLAG_V ∧
    (switch_mode c m.toNat).cpsr &&& FLAG_T = c.cpsr &&& FLAG_T ∧
    (get_current_mode c = m.toNat → switch_mode c m.toNat = c) := by
  by_cases h : get_current_mode c = m.toNat
  · have hnoop : switch_mode c m.toNat = c := by
      unfold switch_mode
      rw [if_pos h]
    rw [hnoop]
    exact ⟨rfl, rfl, rfl, rfl, rfl, fun _ => rfl⟩
  · have hc := switch_mode_cpsr_of_ne c m.toNat h
    have hb := cpuMode_toNat_lt m
    rw [hc]
    have hN : (FLAG_N : Nat) = 2 ^ 31 := by decide
    have hZ : (FLAG_Z : Nat) = 2 ^ 30 := by decide
    have hC : (FLAG_C : Nat) = 2 ^ 29 := by decide
    have hV : (FLAG_V : Nat) = 2 ^ 28 := by decide
    have hT : (FLAG_T : Nat) = 2 ^ 5 := by decide
    refine ⟨?_, ?_, ?_, ?_, ?_, fun hcur => absurd hcur h⟩
    · rw [hN]; exact mode_write_preserves_bit c.cpsr m.toNat hb 31 (by omega) (by omega)
    · rw [hZ]; exact mode_write_preserves_bit c.cpsr m.toNat hb 30 (by omega) (by omega)
    · rw [hC]; exact mode_write_preserves_bit c.cpsr m.toNat hb 29 (by omega) (by omega)
    · rw [hV]; exact mode_write_preserves_bit c.cpsr m.toNat hb 28 (by omega) (by omega)
    · rw [hT]; exact mode_write_preserves_bit c.cpsr m.toNat hb 5 (by omega) (by omega)

/-- C8 witness: the no-op case at the reset state targeting System mode,
and the flag-preservation case targeting IRQ mode. -/
theorem c8_witness :
    switch_mode reset CpuMode.SYSTEM.toNat = reset ∧
    (switch_mode reset CpuMode.IRQ.toNat).cpsr &&& FLAG_T = reset.cpsr &&& FLAG_T := by
  have h1 := c8_switch_mode_frame reset CpuMode.SYSTEM
  have h2 := c8_switch_mode_frame reset CpuMode.IRQ
  exact ⟨h1.2.2.2.2.2 (by decide), h2.2.2.2.2.1⟩

/-- write32 never touches the BIOS array: no branch of its region dispatch
selects it. -/
lemma write32_bios (m : GBAMemory) (a v : Nat) : (write32 m a v).bios = m.bios := by
  simp only [write32]
  split_ifs <;> rfl

/-- write32 never touches the ROM image. -/
lemma write32_rom (m : GBAMemory) (a v : Nat) : (write32 m a v).rom = m.rom := by
  simp only [write32]
  split_ifs <;> rfl

/-- write32 never changes the ROM image size. -/
lemma write32_romSize (m : GBAMemory) (a v : Nat) : (write32 m a v).romSize = m.romSize := by
  simp only [write32]
  split_ifs <;> rfl

/-- write16 never touches the BIOS array (each branch is a write32). -/
lemma write16_bios (m : GBAMemory) (a v : Nat) : (write16 m a v).bios = m.bios := by
  unfold write16
  dsimp only
  split_ifs <;> apply write32_bios

/-- write16 never touches the ROM image. -/
lemma write16_rom (m : GBAMemory) (a v : Nat) : (write16 m a v).rom = m.rom := by
  unfold write16
  dsimp only
  split_ifs <;> apply write32_rom

/-- write16 never changes the ROM image size. -/
lemma write16_romSize (m : GBAMemory) (a v : Nat) : (write16 m a v).romSize = m.romSize := by
  unfold write16
  dsimp only
  split_ifs <;> apply write32_romSize

/-- One bus write of any width preserves BIOS and ROM. -/
lemma apply_bus_write_preserves (m : GBAMemory) (w : BusWrite) :
    (apply_bus_write m w).bios = m.bios ∧ (apply_bus_write m w).rom = m.rom ∧
    (apply_bus_write m w).romSize = m.romSize := by
  cases w with
  | w8 a v => exact ⟨write32_bios _ _ _, write32_rom _ _ _, write32_romSize _ _ _⟩
  | w16 a v => exact ⟨write16_bios _ _ _, write16_rom _ _ _, write16_romSize _ _ _⟩
  | w32 a v => exact ⟨write32_bios _ _ _, write32_rom _ _ _, write32_romSize _ _ _⟩

/-- Any sequence of bus writes preserves BIOS and ROM. -/
lemma apply_bus_writes_preserves (l : List BusWrite) :
    ∀ m : GBAMemory, (apply_bus_writes m l).bios = m.bios ∧
      (apply_bus_writes m l).rom = m.rom ∧ (apply_bus_writes m l).romSize = m.romSize := by
  induction l with
  | nil => exact fun m => ⟨rfl, rfl, rfl⟩
  | cons w t ih =>
    intro m
    have hstep : apply_bus_writes m (w :: t) = apply_bus_writes (apply_bus_write m w) t := rfl
    obtain ⟨hb, hr, hs⟩ := ih (apply_bus_write m w)
    obtain ⟨hb1, hr1, hs1⟩ := apply_bus_write_preserves m w
    rw [hstep]
    exact ⟨hb.trans hb1, hr.trans hr1, hs.trans hs1⟩

/-- C9. Bus writes of every width leave the BIOS region and the cartridge
ROM image (contents and size) unchanged, for every address and value, and
hence so does any sequence of bus writes. -/
theorem c9_rom_bios_immutable :
    (∀ (m : GBAMemory) (a v : Nat),
      (write8 m a v).bios = m.bios ∧ (write8 m a v).rom = m.rom ∧
      (write8 m a v).romSize = m.romSize) ∧
    (∀ (m : GBAMemory) (a v : Nat),
      (write16 m a v).bios = m.bios ∧ (write16 m a v).rom = m.rom ∧
      (write16 m a v).romSize = m.romSize) ∧
    (∀ (m : GBAMemory) (a v : Nat),
      (write32 m a v).bios = m.bios ∧ (write32 m a v).rom = m.rom ∧
      (write32 m a v).romSize = m.romSize) ∧
    (∀ (m : GBAMemory) (l : List BusWrite),
      (apply_bus_writes m l).bios = m.bios ∧ (apply_bus_writes m l).rom = m.rom ∧
      (apply_bus_writes m l).romSize = m.romSize) := by
  refine ⟨fun m a v => ⟨write32_bios _ _ _, write32_rom _ _ _, write32_romSize _ _ _⟩,
    fun m a v => ⟨write16_bios m a v, write16_rom m a v, write16_romSize m a v⟩,
    fun m a v => ⟨write32_bios m a v, write32_rom m a v, write32_romSize m a v⟩,
    fun m l => apply_bus_writes_preserves l m⟩

/-- IRQ entry reestablishes thumb consistency unconditionally: it clears
both the thumb flag and the T bit. -/
lemma handle_irq_thumb_consistent (c : ARM7CPU) : thumb_consistent (handle_irq c) := by
  have hT : (handle_irq c).cpsr &&& FLAG_T = 0 := by
    unfold handle_irq
    exact land_notT_T _
  have hm : (handle_irq c).thumb_mode = false := rfl
  unfold thumb_consistent
  rw [hT, hm]
  simp

/-- FIQ entry reestablishes thumb consistency unconditionally. -/
lemma handle_fiq_thumb_consistent (c : ARM7CPU) : thumb_consistent (handle_fiq c) := by
  have hT : (handle_fiq c).cpsr &&& FLAG_T = 0 := by
    unfold handle_fiq
    exact land_notT_T _
  have hm : (handle_fiq c).thumb_mode = false := rfl
  unfold thumb_consistent
  rw [hT, hm]
  simp

/-- C10. The redundant instruction-set representation stays consistent:
thumb_mode agrees with the T bit of the CPSR after reset, unconditionally
after handle_irq and handle_fiq, and the step function preserves the
invariant. -/
theorem c10_thumb_invariant :
    thumb_consistent reset ∧
    (∀ c : ARM7CPU, thumb_consistent (handle_irq c)) ∧
    (∀ c : ARM7CPU, thumb_consistent (handle_fiq c)) ∧
    (∀ g : GBASystem, thumb_consistent g.cpu → thumb_consistent (step g).cpu) := by
  refine ⟨by decide, handle_irq_thumb_consistent, handle_fiq_thumb_consistent, fun g h => ?_⟩
  unfold step
  split
  · exact handle_irq_thumb_consistent g.cpu
  · split
    · show thumb_consistent { execute_thumb _ _ with cycles := _ }
      rw [execute_thumb_id]
      exact h
    · show thumb_consistent { execute_arm _ _ with cycles := _ }
      rw [execute_arm_id]
      exact h

/-- C10 witness: the preservation conjunct applied at the concrete
IRQ-entry scenario state. -/
theorem c10_thumb_invariant_witness : thumb_consistent (step irq_entry_state).cpu :=
  c10_thumb_invariant.2.2.2 irq_entry_state (by decide)

end GBA
